import Mathlib

/-
Shallow embedding of the resilience control plane of the AI-UI-Generator
backend: the circuit breaker (src/backend/services/circuit_breaker.py),
the sliding-window rate limiter (src/backend/services/rate_limiter.py),
the retried LLM call (src/backend/services/llm_service.py), and the
background job writer (src/backend/server.py, process_generation).

Wall-clock time (Python time.time()) is passed explicitly as an integer
timestamp.  Python's truthiness test on a float timestamp
(if self.last_failure_time and ...) is modelled faithfully: a stored
timestamp equal to 0 is falsy.
-/

inductive CircuitState where
  | closed
  | opened
  | halfOpen
deriving DecidableEq, Repr

/-- State of one CircuitBreaker instance (circuit_breaker.py, lines 22-35).
`failure_threshold` and `timeout_seconds` are the configured constants;
the mutable fields are `failure_count`, `success_count`,
`last_failure_time` and `state`. -/
structure CircuitBreaker where
  failure_threshold : Nat
  timeout_seconds : Int
  failure_count : Nat
  success_count : Nat
  last_failure_time : Option Int
  state : CircuitState
deriving DecidableEq, Repr

/-- circuit_breaker.py `_open_circuit` (lines 79-82). -/
def _open_circuit (cb : CircuitBreaker) : CircuitBreaker :=
  { cb with state := CircuitState.opened, success_count := 0 }

/-- circuit_breaker.py `_close_circuit` (lines 84-88). -/
def _close_circuit (cb : CircuitBreaker) : CircuitBreaker :=
  { cb with state := CircuitState.closed, failure_count := 0, success_count := 0 }

/-- circuit_breaker.py `_half_open_circuit` (lines 90-93). -/
def _half_open_circuit (cb : CircuitBreaker) : CircuitBreaker :=
  { cb with state := CircuitState.halfOpen, success_count := 0 }

/-- circuit_breaker.py `record_success` (lines 37-46). -/
def record_success (cb : CircuitBreaker) : CircuitBreaker :=
  if cb.state = CircuitState.halfOpen then
    let cb' := { cb with success_count := cb.success_count + 1 }
    if cb'.success_count ≥ 2 then _close_circuit cb' else cb'
  else if cb.state = CircuitState.closed then
    { cb with failure_count := 0 }
  else
    cb

/-- circuit_breaker.py `record_failure` (lines 48-61): the counter and the
failure time are updated first, then the state branch is taken. -/
def record_failure (now : Int) (cb : CircuitBreaker) : CircuitBreaker :=
  let cb' := { cb with failure_count := cb.failure_count + 1,
                       last_failure_time := some now }
  if cb'.state = CircuitState.halfOpen then
    _open_circuit cb'
  else if cb'.failure_count ≥ cb'.failure_threshold then
    _open_circuit cb'
  else
    cb'

/-- circuit_breaker.py `can_execute` (lines 63-77).  Returns the boolean
answer together with the (possibly updated) breaker.  The Python guard
`if self.last_failure_time and ...` is falsy for both None and 0. -/
def can_execute (now : Int) (cb : CircuitBreaker) : Bool × CircuitBreaker :=
  if cb.state = CircuitState.closed then
    (true, cb)
  else if cb.state = CircuitState.opened then
    match cb.last_failure_time with
    | some t =>
        if t ≠ 0 ∧ now - t ≥ cb.timeout_seconds then
          (true, _half_open_circuit cb)
        else
          (false, cb)
    | none => (false, cb)
  else
    (true, cb)

/-
Rate limiter (rate_limiter.py).  The defaultdict(list) of per-identifier
timestamp lists is modelled as a total function from identifiers to lists
(default value []).
-/

/-- State of the RateLimiter instance (rate_limiter.py, lines 7-9 of the
class body): the configured default limit and the per-identifier
timestamp lists. -/
structure RateLimiter where
  max_requests_per_minute : Nat
  requests : String → List Int

/-- rate_limiter.py `_clean_old_requests` (lines 30-36): keep only the
timestamps strictly newer than `now - window_seconds`. -/
def _clean_old_requests (now : Int) (identifier : String) (window_seconds : Int)
    (rl : RateLimiter) : RateLimiter :=
  let window_start := now - window_seconds
  { rl with requests := fun s =>
      if s = identifier then (rl.requests identifier).filter (fun ts => window_start < ts)
      else rl.requests s }

/-- rate_limiter.py `check_rate_limit` (lines 38-62).  `max_requests` is an
optional argument; Python's `max_requests or self.max_requests_per_minute`
falls back to the default when the argument is None or 0 (falsy).
Returns ((admitted, remaining), updated limiter). -/
def check_rate_limit (now : Int) (identifier : String) (max_requests : Option Nat)
    (window_seconds : Int) (rl : RateLimiter) : (Bool × Nat) × RateLimiter :=
  let maxReq := match max_requests with
    | some m => if m = 0 then rl.max_requests_per_minute else m
    | none => rl.max_requests_per_minute
  let rl1 := _clean_old_requests now identifier window_seconds rl
  let request_count := (rl1.requests identifier).length
  if request_count ≥ maxReq then
    ((false, 0), rl1)
  else
    let rl2 := { rl1 with requests := fun s =>
        if s = identifier then rl1.requests identifier ++ [now] else rl1.requests s }
    ((true, maxReq - request_count - 1), rl2)

/-
LLM service (llm_service.py).  The exception hierarchy is:
LLMServiceError <- CircuitBreakerOpenError, LLMServiceError <- RateLimitError;
anything else (e.g. an exception from the openai client) is outside the
hierarchy.  tenacity's retry_if_exception_type(LLMServiceError) matches a
subclass, so all three in-hierarchy kinds are retriable.
-/

inductive PyExc where
  | CircuitBreakerOpen (msg : String)
  | LLMService (msg : String)
  | RateLimit (msg : String)
  | Other (msg : String)
deriving DecidableEq, Repr

/-- isinstance(e, LLMServiceError): true for the base class and both of its
subclasses (llm_service.py lines 11-21), false for foreign exceptions. -/
def isLLMServiceError : PyExc → Bool
  | PyExc.CircuitBreakerOpen _ => true
  | PyExc.LLMService _ => true
  | PyExc.RateLimit _ => true
  | PyExc.Other _ => false

/-- Python str(e): the message the exception was constructed with. -/
def excMessage : PyExc → String
  | PyExc.CircuitBreakerOpen m => m
  | PyExc.LLMService m => m
  | PyExc.RateLimit m => m
  | PyExc.Other m => m

/-- Result dict of a successful generate_ui_code call (lines 107-110). -/
structure GenResult where
  code : String
  explanation : String
deriving DecidableEq, Repr

/-- llm_service.py lines 97-103: strip a leading markdown fence line and a
trailing fence line from the model output. -/
def clean_code (code : String) : String :=
  if code.startsWith "```" then
    let lines := (code.splitOn "\n").drop 1
    let lines :=
      match lines.getLast? with
      | some last => if last.trim = "```" then lines.dropLast else lines
      | none => lines
    String.intercalate "\n" lines
  else code

/-- Environment of one attempt of the body of generate_ui_code: the wall
clock at the attempt, whether self.client is configured (a non-empty
OPENAI_API_KEY), and what the openai call would do if reached (.ok content,
or .error message for any exception it raises). -/
structure AttemptEnv where
  now : Int
  clientConfigured : Bool
  apiOutcome : Except String String

/-- Outcome of one attempt: the value returned or the exception raised, the
breaker afterwards, and whether the underlying openai call was invoked. -/
structure AttemptResult where
  result : Except PyExc GenResult
  breaker : CircuitBreaker
  invokedApi : Bool
deriving Repr

/-- One execution of the body of generate_ui_code (llm_service.py lines
63-116): the breaker gate, then the try block (missing-key check, openai
call, record_success, fence stripping), then the except handler that
records a breaker failure and re-raises everything as LLMServiceError. -/
def generate_attempt (prompt : String) (env : AttemptEnv) (cb : CircuitBreaker) :
    AttemptResult :=
  let gate := can_execute env.now cb
  if gate.1 = false then
    { result := Except.error (PyExc.CircuitBreakerOpen
        "LLM service is temporarily unavailable. Please try again later.")
      breaker := gate.2
      invokedApi := false }
  else if env.clientConfigured = false then
    let cb1 := record_failure env.now gate.2
    { result := Except.error (PyExc.LLMService
        ("Failed to generate UI code: " ++ "OpenAI API key not configured"))
      breaker := cb1
      invokedApi := false }
  else
    match env.apiOutcome with
    | Except.ok content =>
        let cb1 := record_success gate.2
        let code := clean_code content.trim
        { result := Except.ok
            { code := code.trim
              explanation := "Generated React component based on: " ++ prompt }
          breaker := cb1
          invokedApi := true }
    | Except.error msg =>
        let cb1 := record_failure env.now gate.2
        { result := Except.error (PyExc.LLMService ("Failed to generate UI code: " ++ msg))
          breaker := cb1
          invokedApi := true }

/-- Outcome of the whole retried call: final value or exception, how many
attempts of the decorated body ran, how many backoff sleeps were taken,
how many openai invocations happened, and the final breaker. -/
structure RetryResult where
  result : Except PyExc GenResult
  attempts : Nat
  sleeps : Nat
  apiCalls : Nat
  breaker : CircuitBreaker
deriving Repr

/-- The tenacity loop of generate_ui_code (llm_service.py lines 57-62):
stop_after_attempt(3), retry_if_exception_type(LLMServiceError),
reraise=True.  `retriesLeft` counts the retries still allowed after the
current attempt; an exception outside the LLMServiceError hierarchy, or an
exhausted attempt budget, propagates.  A backoff sleep precedes every
re-attempt.  `i` is the index of the current attempt (0-based). -/
def retry_go (prompt : String) (envs : Nat → AttemptEnv) :
    Nat → Nat → CircuitBreaker → RetryResult
  | retriesLeft + 1, i, cb =>
      let a := generate_attempt prompt (envs i) cb
      match a.result with
      | Except.ok v =>
          { result := Except.ok v, attempts := i + 1, sleeps := i,
            apiCalls := (if a.invokedApi then 1 else 0), breaker := a.breaker }
      | Except.error e =>
          if isLLMServiceError e then
            let rest := retry_go prompt envs retriesLeft (i + 1) a.breaker
            { rest with apiCalls := (if a.invokedApi then 1 else 0) + rest.apiCalls }
          else
            { result := Except.error e, attempts := i + 1, sleeps := i,
              apiCalls := (if a.invokedApi then 1 else 0), breaker := a.breaker }
  | 0, i, cb =>
      let a := generate_attempt prompt (envs i) cb
      { result := a.result, attempts := i + 1, sleeps := i,
        apiCalls := (if a.invokedApi then 1 else 0), breaker := a.breaker }

/-- generate_ui_code as called from outside: up to 3 total attempts. -/
def generate_ui_code (prompt : String) (envs : Nat → AttemptEnv)
    (cb : CircuitBreaker) : RetryResult :=
  retry_go prompt envs 2 0 cb

/-
Job orchestration (server.py).  The Mongo document for one job is modelled
as a record; update_one({"job_id": ...}, {"$set": ...}) on that job is a
field update.  Collaborator writes are modelled as a trace of DbWrite
operations so that "exactly one terminal write" is a statement about the
trace, not only about the final record.
-/

/-- One generations-collection document (server.py lines 170-180). -/
structure JobRecord where
  job_id : String
  prompt : String
  status : String
  generated_code : Option String
  explanation : Option String
  error_message : Option String
deriving DecidableEq, Repr

/-- The document inserted by the /api/generate handler (server.py lines
170-181): status pending, all result fields null. -/
def mkGenerationDoc (job_id prompt : String) : JobRecord :=
  { job_id := job_id, prompt := prompt, status := "pending",
    generated_code := none, explanation := none, error_message := none }

/-- The three update_one $set payloads process_generation can issue
(server.py lines 115-118, 124-132, 137-144). -/
inductive DbWrite where
  | setRunning
  | setSuccess (code explanation : String)
  | setFailed (msg : String)
deriving DecidableEq, Repr

/-- Is the write one of the two terminal ones (success/failed)? -/
def DbWrite.isTerminal : DbWrite → Bool
  | DbWrite.setRunning => false
  | DbWrite.setSuccess _ _ => true
  | DbWrite.setFailed _ => true

/-- Effect of one update_one $set on the job document. -/
def applyWrite (job : JobRecord) : DbWrite → JobRecord
  | DbWrite.setRunning => { job with status := "running" }
  | DbWrite.setSuccess c e =>
      { job with status := "success", generated_code := some c, explanation := some e }
  | DbWrite.setFailed m =>
      { job with status := "failed", error_message := some m }

/-- The try block of process_generation (server.py lines 111-133): write
running, call the LLM, and on success write the success record.  Returns
the exception still in flight (if any) together with the writes made so
far. -/
def process_generation_try (llmResult : Except PyExc GenResult) :
    Except PyExc Unit × List DbWrite :=
  match llmResult with
  | Except.ok r =>
      (Except.ok (), [DbWrite.setRunning, DbWrite.setSuccess r.code r.explanation])
  | Except.error e => (Except.error e, [DbWrite.setRunning])

/-- server.py process_generation (lines 109-144): the try block plus the
catch-all except handler, which converts any exception into a failed
write.  The first component is the exception (if any) escaping the
background task. -/
def process_generation (llmResult : Except PyExc GenResult) :
    Except PyExc Unit × List DbWrite :=
  match process_generation_try llmResult with
  | (Except.ok (), ws) => (Except.ok (), ws)
  | (Except.error e, ws) => (Except.ok (), ws ++ [DbWrite.setFailed (excMessage e)])

/-
Helper lemmas about single circuit-breaker operations.
-/

/-- In Closed state, can_execute answers true and changes nothing. -/
theorem can_execute_closed (now : Int) (cb : CircuitBreaker)
    (hst : cb.state = CircuitState.closed) :
    can_execute now cb = (true, cb) := by
  simp [can_execute, hst]

/-- A failure recorded while Closed and still under the threshold only bumps
the counter and the failure time. -/
theorem record_failure_stays_closed (now : Int) (cb : CircuitBreaker)
    (hst : cb.state = CircuitState.closed)
    (hlt : cb.failure_count + 1 < cb.failure_threshold) :
    record_failure now cb =
      { cb with failure_count := cb.failure_count + 1,
                last_failure_time := some now } := by
  have h2 : ¬(cb.failure_count + 1 ≥ cb.failure_threshold) := by omega
  simp [record_failure, hst, h2]

/-- A failure recorded while Closed that reaches the threshold opens the
circuit. -/
theorem record_failure_opens_from_closed (now : Int) (cb : CircuitBreaker)
    (hst : cb.state = CircuitState.closed)
    (hge : cb.failure_count + 1 ≥ cb.failure_threshold) :
    record_failure now cb =
      { cb with failure_count := cb.failure_count + 1,
                last_failure_time := some now,
                state := CircuitState.opened,
                success_count := 0 } := by
  simp [record_failure, hst, hge, _open_circuit]

/-- record_failure always increments the failure counter, whatever branch
is taken. -/
theorem record_failure_count (now : Int) (cb : CircuitBreaker) :
    (record_failure now cb).failure_count = cb.failure_count + 1 := by
  simp only [record_failure]
  split
  · simp [_open_circuit]
  · split <;> simp [_open_circuit]

/-- C5: for a breaker in state Open with a (positive, hence truthy) recorded
last_failure_time, can_execute returns false and leaves the breaker
untouched while the elapsed time since the last failure is below
timeout_seconds; once at least timeout_seconds have elapsed it transitions
the breaker to HalfOpen (resetting success_count) and returns true. -/
theorem can_execute_open_gate (cb : CircuitBreaker) (t now : Int)
    (hst : cb.state = CircuitState.opened)
    (hlf : cb.last_failure_time = some t) (ht : 0 < t) :
    (now - t < cb.timeout_seconds → can_execute now cb = (false, cb)) ∧
    (cb.timeout_seconds ≤ now - t →
      can_execute now cb = (true, _half_open_circuit cb) ∧
      (_half_open_circuit cb).state = CircuitState.halfOpen ∧
      (_half_open_circuit cb).success_count = 0) := by
  constructor
  · intro hlt
    have hcond : ¬(t ≠ 0 ∧ now - t ≥ cb.timeout_seconds) := by omega
    simp [can_execute, hst, hlf, hcond]
  · intro hge
    have hcond : t ≠ 0 ∧ now - t ≥ cb.timeout_seconds := by omega
    simp [can_execute, hst, hlf, hcond, _half_open_circuit]

/-- Witness for C5 at a concrete breaker: threshold 5, timeout 60,
opened at time 100; queried at times 130 (too early) and 160 (elapsed). -/
theorem can_execute_open_gate_witness :
    can_execute 130 (CircuitBreaker.mk 5 60 5 0 (some 100) CircuitState.opened) =
      (false, CircuitBreaker.mk 5 60 5 0 (some 100) CircuitState.opened) ∧
    can_execute 160 (CircuitBreaker.mk 5 60 5 0 (some 100) CircuitState.opened) =
      (true, CircuitBreaker.mk 5 60 5 0 (some 100) CircuitState.halfOpen) := by
  have h1 := can_execute_open_gate
    (CircuitBreaker.mk 5 60 5 0 (some 100) CircuitState.opened) 100 130 rfl rfl (by decide)
  have h2 := can_execute_open_gate
    (CircuitBreaker.mk 5 60 5 0 (some 100) CircuitState.opened) 100 160 rfl rfl (by decide)
  refine ⟨h1.1 (by decide), ?_⟩
  have h3 := (h2.2 (by decide)).1
  simpa [_half_open_circuit] using h3

/-- C6: from a freshly entered HalfOpen state (success_count = 0, as
_half_open_circuit guarantees), one record_failure reopens the circuit;
one record_success leaves it HalfOpen with success_count 1; a second
consecutive record_success closes it with both counters reset to 0. -/
theorem half_open_probe_semantics (cb : CircuitBreaker) (now : Int)
    (hst : cb.state = CircuitState.halfOpen) (hsc : cb.success_count = 0) :
    (record_failure now cb).state = CircuitState.opened ∧
    (record_success cb).state = CircuitState.halfOpen ∧
    (record_success cb).success_count = 1 ∧
    (record_success (record_success cb)).state = CircuitState.closed ∧
    (record_success (record_success cb)).failure_count = 0 ∧
    (record_success (record_success cb)).success_count = 0 := by
  have h1 : record_success cb = { cb with success_count := 1 } := by
    simp [record_success, hst, hsc]
  refine ⟨?_, ?_, ?_, ?_, ?_, ?_⟩
  · simp [record_failure, hst, _open_circuit]
  · rw [h1]; exact hst
  · rw [h1]
  · rw [h1]; simp [record_success, hst, _close_circuit]
  · rw [h1]; simp [record_success, hst, _close_circuit]
  · rw [h1]; simp [record_success, hst, _close_circuit]

/-- Witness for C6 at a concrete HalfOpen breaker. -/
theorem half_open_probe_semantics_witness :
    (record_failure 500 (CircuitBreaker.mk 2 60 3 0 (some 400) CircuitState.halfOpen)).state
      = CircuitState.opened ∧
    (record_success (record_success
        (CircuitBreaker.mk 2 60 3 0 (some 400) CircuitState.halfOpen))).state
      = CircuitState.closed := by
  have h := half_open_probe_semantics
    (CircuitBreaker.mk 2 60 3 0 (some 400) CircuitState.halfOpen) 500 rfl rfl
  exact ⟨h.1, h.2.2.2.1⟩

/-
C7: every state change is one of the four edges.  The three public methods
are reified as operations so that a whole call sequence is a list.
-/

/-- One public call on the breaker (can_execute at some wall-clock time,
record_success, or record_failure at some wall-clock time). -/
inductive BreakerOp where
  | canExec (now : Int)
  | recSuccess
  | recFailure (now : Int)
deriving Repr

/-- Apply one public call to the breaker (can_execute keeps only its state
effect). -/
def applyOp (cb : CircuitBreaker) : BreakerOp → CircuitBreaker
  | BreakerOp.canExec now => (can_execute now cb).2
  | BreakerOp.recSuccess => record_success cb
  | BreakerOp.recFailure now => record_failure now cb

/-- The four legal edges of the breaker state machine. -/
def allowedEdge (s s' : CircuitState) : Bool :=
  (s = CircuitState.closed ∧ s' = CircuitState.opened) ∨
  (s = CircuitState.opened ∧ s' = CircuitState.halfOpen) ∨
  (s = CircuitState.halfOpen ∧ s' = CircuitState.closed) ∨
  (s = CircuitState.halfOpen ∧ s' = CircuitState.opened)

/-- One step either keeps the state or follows a legal edge. -/
def breakerStepOk (c c' : CircuitBreaker) : Prop :=
  c'.state = c.state ∨ allowedEdge c.state c'.state = true

/-- The sequence of breaker values visited while running a call sequence,
starting value included. -/
def breakerTrace (cb : CircuitBreaker) : List BreakerOp → List CircuitBreaker
  | [] => [cb]
  | op :: rest => cb :: breakerTrace (applyOp cb op) rest

theorem breakerTrace_head (cb : CircuitBreaker) (ops : List BreakerOp) :
    (breakerTrace cb ops).head? = some cb := by
  cases ops <;> rfl

/-- Any single operation either leaves the state unchanged or follows one
of the four legal edges. -/
theorem applyOp_state_edge (cb : CircuitBreaker) (op : BreakerOp) :
    breakerStepOk cb (applyOp cb op) := by
  rcases cb with ⟨ft, ts, fc, sc, lft, st⟩
  cases op with
  | canExec now =>
      cases st <;> rcases lft with _ | t <;>
        simp [breakerStepOk, applyOp, can_execute, _half_open_circuit, allowedEdge] <;>
        split <;> simp [allowedEdge]
  | recSuccess =>
      cases st <;>
        simp [breakerStepOk, applyOp, record_success, _close_circuit, allowedEdge] <;>
        split <;> simp [allowedEdge]
  | recFailure now =>
      cases st <;>
        simp [breakerStepOk, applyOp, record_failure, _open_circuit, allowedEdge] <;>
        split <;> simp [allowedEdge]

theorem breakerTrace_chain (ops : List BreakerOp) (cb : CircuitBreaker) :
    List.Chain' breakerStepOk (breakerTrace cb ops) := by
  induction ops generalizing cb with
  | nil => simp [breakerTrace]
  | cons op rest ih =>
      rw [breakerTrace, List.chain'_cons']
      refine ⟨?_, ih (applyOp cb op)⟩
      intro b hb
      rw [breakerTrace_head (applyOp cb op) rest] at hb
      have hb' : applyOp cb op = b := by simpa using hb
      rw [← hb']
      exact applyOp_state_edge cb op

/-- C7: over any sequence of can_execute / record_success / record_failure
calls starting from a Closed breaker, every change of the state field
follows one of the four edges Closed→Open, Open→HalfOpen, HalfOpen→Closed,
HalfOpen→Open. -/
theorem breaker_state_edge_invariant (ops : List BreakerOp) (cb : CircuitBreaker)
    (hst : cb.state = CircuitState.closed) :
    List.Chain' breakerStepOk (breakerTrace cb ops) :=
  breakerTrace_chain ops cb

/-- Witness for C7: a concrete run Closed → Open → HalfOpen → Closed. -/
theorem breaker_state_edge_invariant_witness :
    List.Chain' breakerStepOk (breakerTrace
      (CircuitBreaker.mk 1 60 0 0 none CircuitState.closed)
      [BreakerOp.recFailure 10, BreakerOp.canExec 100,
       BreakerOp.recSuccess, BreakerOp.recSuccess]) :=
  breaker_state_edge_invariant _ _ rfl

/-
C4: threshold-many consecutive failures open a Closed breaker exactly on
the last call.
-/

/-- k consecutive record_failure calls, the j-th at time `times j`. -/
def failN (times : Nat → Int) (cb : CircuitBreaker) : Nat → CircuitBreaker
  | 0 => cb
  | k + 1 => record_failure (times k) (failN times cb k)

/-- Invariant of the failure sequence while under the threshold: the
counter equals the number of calls, the configuration is untouched, the
state is still Closed strictly before the threshold, and the failure time
is the time of the last call. -/
theorem failN_invariant (times : Nat → Int) (cb : CircuitBreaker)
    (hst : cb.state = CircuitState.closed) (hfc : cb.failure_count = 0) :
    ∀ k, k ≤ cb.failure_threshold →
      (failN times cb k).failure_count = k ∧
      (failN times cb k).failure_threshold = cb.failure_threshold ∧
      (failN times cb k).timeout_seconds = cb.timeout_seconds ∧
      (k < cb.failure_threshold → (failN times cb k).state = CircuitState.closed) ∧
      (0 < k → (failN times cb k).last_failure_time = some (times (k - 1))) := by
  intro k
  induction k with
  | zero =>
      intro _
      exact ⟨hfc, rfl, rfl, fun _ => hst, fun h => absurd h (by omega)⟩
  | succ k ih =>
      intro hk
      obtain ⟨hcnt, hth, hts, hcl, _⟩ := ih (by omega)
      have hclk : (failN times cb k).state = CircuitState.closed := hcl (by omega)
      by_cases hlast : k + 1 < cb.failure_threshold
      · have := record_failure_stays_closed (times k) (failN times cb k) hclk
          (by rw [hcnt, hth]; omega)
        rw [failN, this]
        exact ⟨by rw [hcnt], by rw [hth], by rw [hts], fun _ => hclk, fun _ => by simp⟩
      · have hge : k + 1 ≥ cb.failure_threshold := by omega
        have := record_failure_opens_from_closed (times k) (failN times cb k) hclk
          (by rw [hcnt, hth]; omega)
        rw [failN, this]
        refine ⟨by rw [hcnt], by rw [hth], by rw [hts], fun h => absurd h (by omega), fun _ => by simp⟩

/-- C4: starting Closed with failure_count 0 and failure_threshold ≥ 1,
the breaker is still Closed strictly before the threshold-th
record_failure, is Open right after it, and can_execute — queried before
timeout_seconds have elapsed since the last failure — answers false. -/
theorem record_failure_threshold_opens (times : Nat → Int) (now : Int)
    (cb : CircuitBreaker)
    (hst : cb.state = CircuitState.closed) (hfc : cb.failure_count = 0)
    (hn : 1 ≤ cb.failure_threshold)
    (hnow : now - times (cb.failure_threshold - 1) < cb.timeout_seconds) :
    (∀ k, k < cb.failure_threshold → (failN times cb k).state = CircuitState.closed) ∧
    (failN times cb cb.failure_threshold).state = CircuitState.opened ∧
    (can_execute now (failN times cb cb.failure_threshold)).1 = false := by
  have hprev := failN_invariant times cb hst hfc (cb.failure_threshold - 1) (by omega)
  obtain ⟨hcnt, hth, hts, hcl, _⟩ := hprev
  have hsplit : cb.failure_threshold = (cb.failure_threshold - 1) + 1 := by omega
  have hclprev : (failN times cb (cb.failure_threshold - 1)).state = CircuitState.closed :=
    hcl (by omega)
  have hopen := record_failure_opens_from_closed (times (cb.failure_threshold - 1))
      (failN times cb (cb.failure_threshold - 1)) hclprev (by rw [hcnt, hth]; omega)
  have hfull : failN times cb cb.failure_threshold =
      record_failure (times (cb.failure_threshold - 1))
        (failN times cb (cb.failure_threshold - 1)) := by
    conv_lhs => rw [hsplit]
    rfl
  refine ⟨?_, ?_, ?_⟩
  · intro k hk
    exact (failN_invariant times cb hst hfc k (by omega)).2.2.2.1 hk
  · rw [hfull, hopen]
  · rw [hfull, hopen]
    have hcond : ¬(¬times (cb.failure_threshold - 1) = 0 ∧
        cb.timeout_seconds ≤ now - times (cb.failure_threshold - 1)) := by omega
    simp [can_execute, hts, hcond]

/-- Witness for C4: threshold 2, failures at times 100 and 101, query at
time 150 (before the 60-second timeout elapses). -/
theorem record_failure_threshold_opens_witness :
    (failN (fun i => (100 : Int) + i)
        (CircuitBreaker.mk 2 60 0 0 none CircuitState.closed) 1).state
      = CircuitState.closed ∧
    (failN (fun i => (100 : Int) + i)
        (CircuitBreaker.mk 2 60 0 0 none CircuitState.closed) 2).state
      = CircuitState.opened ∧
    (can_execute 150 (failN (fun i => (100 : Int) + i)
        (CircuitBreaker.mk 2 60 0 0 none CircuitState.closed) 2)).1 = false := by
  have h := record_failure_threshold_opens (fun i => (100 : Int) + i) 150
    (CircuitBreaker.mk 2 60 0 0 none CircuitState.closed) rfl rfl (by decide) (by decide)
  exact ⟨h.1 1 (by decide), h.2.1, h.2.2⟩

/-
Rate limiter lemmas.
-/

/-- One admitted check_rate_limit call: with an explicit non-zero limit, a
stored list that fully survives the purge, and spare capacity, the call
returns (true, m - count - 1), appends `now`, and leaves other
identifiers alone. -/
theorem check_rate_limit_step (now : Int) (identifier : String) (m : Nat)
    (window : Int) (rl : RateLimiter) (L : List Int)
    (hm : m ≠ 0) (hL : rl.requests identifier = L)
    (hkeep : ∀ ts ∈ L, now - window < ts)
    (hlen : L.length < m) :
    (check_rate_limit now identifier (some m) window rl).1 = (true, m - L.length - 1) ∧
    (check_rate_limit now identifier (some m) window rl).2.requests identifier
      = L ++ [now] ∧
    ∀ s, s ≠ identifier →
      (check_rate_limit now identifier (some m) window rl).2.requests s
        = rl.requests s := by
  have hfilter : (rl.requests identifier).filter (fun ts => decide (now - window < ts)) = L := by
    rw [hL]
    apply List.filter_eq_self.mpr
    intro a ha
    simpa using hkeep a ha
  have hnotge : ¬(m ≤ L.length) := by omega
  refine ⟨?_, ?_, ?_⟩
  · simp [check_rate_limit, _clean_old_requests, hm, hfilter, hnotge]
  · simp [check_rate_limit, _clean_old_requests, hm, hfilter, hnotge]
  · intro s hs
    simp [check_rate_limit, _clean_old_requests, hm, hfilter, hnotge, hs]

/-- One rejected check_rate_limit call: with the window already full after
the purge, the call returns (false, 0) and stores nothing. -/
theorem check_rate_limit_reject (now : Int) (identifier : String) (m : Nat)
    (window : Int) (rl : RateLimiter) (L : List Int)
    (hm : m ≠ 0) (hL : rl.requests identifier = L)
    (hkeep : ∀ ts ∈ L, now - window < ts)
    (hlen : m ≤ L.length) :
    (check_rate_limit now identifier (some m) window rl).1 = (false, 0) ∧
    (check_rate_limit now identifier (some m) window rl).2.requests identifier = L := by
  have hfilter : (rl.requests identifier).filter (fun ts => decide (now - window < ts)) = L := by
    rw [hL]
    apply List.filter_eq_self.mpr
    intro a ha
    simpa using hkeep a ha
  constructor
  · simp [check_rate_limit, _clean_old_requests, hm, hfilter, hlen]
  · simp [check_rate_limit, _clean_old_requests, hm, hfilter, hlen]

/-- k consecutive check_rate_limit calls for one identifier, the j-th at
time `times j`, all passing the same explicit limit and window. -/
def callN (times : Nat → Int) (identifier : String) (maxReq : Nat) (window : Int)
    (rl : RateLimiter) : Nat → RateLimiter
  | 0 => rl
  | k + 1 => (check_rate_limit (times k) identifier (some maxReq) window
      (callN times identifier maxReq window rl k)).2

/-- The (admitted, remaining) answer of the (k+1)-th call (0-based k). -/
def callOut (times : Nat → Int) (identifier : String) (maxReq : Nat) (window : Int)
    (rl : RateLimiter) (k : Nat) : Bool × Nat :=
  (check_rate_limit (times k) identifier (some maxReq) window
      (callN times identifier maxReq window rl k)).1

/-- After k admitted calls (k ≤ maxReq) starting from an empty window,
the stored list is exactly the k call times in order. -/
theorem callN_requests (times : Nat → Int) (identifier : String) (maxReq : Nat)
    (window : Int) (rl : RateLimiter)
    (h0 : rl.requests identifier = [])
    (hmono : ∀ i j, i ≤ j → times i ≤ times j)
    (hwin : times maxReq - times 0 < window)
    (h1 : 1 ≤ maxReq) :
    ∀ k, k ≤ maxReq →
      (callN times identifier maxReq window rl k).requests identifier
        = (List.range k).map times := by
  intro k
  induction k with
  | zero =>
      intro _
      simpa [callN] using h0
  | succ k ih =>
      intro hk
      have hreq := ih (by omega)
      have hkeep : ∀ ts ∈ (List.range k).map times, times k - window < ts := by
        intro ts hts
        obtain ⟨i, hi, rfl⟩ := List.mem_map.mp hts
        have hik : i < k := List.mem_range.mp hi
        have ha : times 0 ≤ times i := hmono 0 i (by omega)
        have hb : times k ≤ times maxReq := hmono k maxReq (by omega)
        omega
      have hlen : ((List.range k).map times).length < maxReq := by
        simpa using (by omega : k < maxReq)
      have hstep := check_rate_limit_step (times k) identifier maxReq window
        (callN times identifier maxReq window rl k) ((List.range k).map times)
        (by omega) hreq hkeep hlen
      rw [callN, hstep.2.1, List.range_succ, List.map_append]
      rfl

/-- C8: from an empty window, maxReq calls within one window are all
admitted, the (0-based) k-th answering (true, maxReq - k - 1) — so the
remaining values decrease strictly to 0 — and the (maxReq+1)-th call is
rejected with (false, 0) without storing a timestamp: the stored list
after its purge is exactly the list left by the maxReq admitted calls. -/
theorem check_rate_limit_window_admission (times : Nat → Int) (identifier : String)
    (maxReq : Nat) (window : Int) (rl : RateLimiter)
    (h0 : rl.requests identifier = [])
    (hmono : ∀ i j, i ≤ j → times i ≤ times j)
    (hwin : times maxReq - times 0 < window)
    (h1 : 1 ≤ maxReq) :
    (∀ k, k < maxReq →
      callOut times identifier maxReq window rl k = (true, maxReq - k - 1)) ∧
    callOut times identifier maxReq window rl maxReq = (false, 0) ∧
    (callN times identifier maxReq window rl (maxReq + 1)).requests identifier
      = (callN times identifier maxReq window rl maxReq).requests identifier := by
  have hkeepAt : ∀ k, k ≤ maxReq → ∀ ts ∈ (List.range k).map times, times k - window < ts := by
    intro k hk ts hts
    obtain ⟨i, hi, rfl⟩ := List.mem_map.mp hts
    have hik : i < k := List.mem_range.mp hi
    have ha : times 0 ≤ times i := hmono 0 i (by omega)
    have hb : times k ≤ times maxReq := hmono k maxReq (by omega)
    omega
  refine ⟨?_, ?_, ?_⟩
  · intro k hk
    have hreq := callN_requests times identifier maxReq window rl h0 hmono hwin h1 k (by omega)
    have hstep := check_rate_limit_step (times k) identifier maxReq window
      (callN times identifier maxReq window rl k) ((List.range k).map times)
      (by omega) hreq (hkeepAt k (by omega))
      (by simpa using (by omega : k < maxReq))
    rw [callOut, hstep.1]
    simp
  · have hreq := callN_requests times identifier maxReq window rl h0 hmono hwin h1 maxReq (by omega)
    have hrej := check_rate_limit_reject (times maxReq) identifier maxReq window
      (callN times identifier maxReq window rl maxReq) ((List.range maxReq).map times)
      (by omega) hreq (hkeepAt maxReq (by omega))
      (by simp)
    rw [callOut, hrej.1]
  · have hreq := callN_requests times identifier maxReq window rl h0 hmono hwin h1 maxReq (by omega)
    have hrej := check_rate_limit_reject (times maxReq) identifier maxReq window
      (callN times identifier maxReq window rl maxReq) ((List.range maxReq).map times)
      (by omega) hreq (hkeepAt maxReq (by omega))
      (by simp)
    rw [callN, hrej.2, hreq]

/-- Witness for C8: limit 3, window 60, calls at times 0,1,2 admitted with
remaining 2,1,0; the call at time 3 is rejected. -/
theorem check_rate_limit_window_admission_witness :
    callOut (fun i => (i : Int)) "ip" 3 60 (RateLimiter.mk 10 (fun _ => [])) 0 = (true, 2) ∧
    callOut (fun i => (i : Int)) "ip" 3 60 (RateLimiter.mk 10 (fun _ => [])) 1 = (true, 1) ∧
    callOut (fun i => (i : Int)) "ip" 3 60 (RateLimiter.mk 10 (fun _ => [])) 2 = (true, 0) ∧
    callOut (fun i => (i : Int)) "ip" 3 60 (RateLimiter.mk 10 (fun _ => [])) 3 = (false, 0) := by
  have h := check_rate_limit_window_admission (fun i => (i : Int)) "ip" 3 60
    (RateLimiter.mk 10 (fun _ => [])) rfl
    (fun i j hij => by simpa using hij) (by norm_num) (by omega)
  exact ⟨h.1 0 (by omega), h.1 1 (by omega), h.1 2 (by omega), h.2.1⟩

/-- C9: (i) after the purge every retained timestamp of the identifier lies
in [now - window, now] (assuming the stored timestamps were recorded in
the past, i.e. are ≤ now); (ii) if at least `window` has elapsed since the
last stored timestamp, the next call is admitted exactly as from an empty
window: (true, m - 1). -/
theorem rate_window_invariant_and_reset (rl : RateLimiter) (identifier : String)
    (now window tlast : Int) (m : Nat) :
    ((∀ ts ∈ rl.requests identifier, ts ≤ now) →
      ∀ ts ∈ (_clean_old_requests now identifier window rl).requests identifier,
        now - window ≤ ts ∧ ts ≤ now) ∧
    ((∀ ts ∈ rl.requests identifier, ts ≤ tlast) → tlast + window ≤ now → 1 ≤ m →
      (check_rate_limit now identifier (some m) window rl).1 = (true, m - 1)) := by
  constructor
  · intro hpast ts hts
    simp [_clean_old_requests, List.mem_filter] at hts
    obtain ⟨hmem, hgt⟩ := hts
    exact ⟨by omega, hpast ts hmem⟩
  · intro hlast helapsed hm
    have hfilter : (rl.requests identifier).filter (fun ts => decide (now - window < ts)) = [] := by
      apply List.filter_eq_nil_iff.mpr
      intro a ha
      have := hlast a ha
      simp
      omega
    have hm0 : ¬(m = 0) := by omega
    have hnotge : ¬(m ≤ ([] : List Int).length) := by simp; omega
    simp [check_rate_limit, _clean_old_requests, hm0, hfilter, hnotge]

/-- Witness for C9 at a concrete limiter: two old timestamps at 10 and 20,
window 60, queried at now = 100 (a full window after the last call). -/
theorem rate_window_invariant_and_reset_witness :
    (check_rate_limit 100 "ip" (some 5) 60
      (RateLimiter.mk 10 (fun s => if s = "ip" then [10, 20] else []))).1 = (true, 4) := by
  have h := rate_window_invariant_and_reset
    (RateLimiter.mk 10 (fun s => if s = "ip" then [10, 20] else [])) "ip" 100 60 20 5
  exact h.2 (by intro ts hts; simp at hts; rcases hts with h' | h' <;> omega) (by omega) (by omega)

/-- C10: passing the explicit argument max_requests = 0 does not enforce a
zero limit: Python's `max_requests or self.max_requests_per_minute` treats
0 as falsy, so the call behaves exactly like a call with the configured
default; in particular from an empty window with a positive default a
request IS admitted under a nominal limit of zero. -/
theorem check_rate_limit_zero_fallback (now : Int) (identifier : String)
    (window : Int) (rl : RateLimiter) :
    check_rate_limit now identifier (some 0) window rl
      = check_rate_limit now identifier none window rl ∧
    (rl.requests identifier = [] → 1 ≤ rl.max_requests_per_minute →
      (check_rate_limit now identifier (some 0) window rl).1
        = (true, rl.max_requests_per_minute - 1)) := by
  constructor
  · rfl
  · intro h0 h1
    have hfilter : (rl.requests identifier).filter (fun ts => decide (now - window < ts)) = [] := by
      rw [h0]
      rfl
    have hnotge : ¬(rl.max_requests_per_minute ≤ ([] : List Int).length) := by
      simp
      omega
    have hm : ¬(rl.max_requests_per_minute = 0) := by omega
    simp [check_rate_limit, _clean_old_requests, hfilter, hnotge, hm]

/-- Witness for C10: a fresh limiter with default 10; a call with
max_requests = 0 is admitted with remaining = 9. -/
theorem check_rate_limit_zero_fallback_witness :
    (check_rate_limit 50 "ip" (some 0) 60 (RateLimiter.mk 10 (fun _ => []))).1
      = (true, 9) := by
  have h := check_rate_limit_zero_fallback 50 "ip" 60 (RateLimiter.mk 10 (fun _ => []))
  exact h.2 rfl (by decide)

/-- C3: for every outcome of the LLM call — a result or any exception —
the background task lets no exception escape, performs exactly one
terminal write, that terminal write is the last one, and the resulting
job record is either a success record (non-null code and explanation,
null error message) or a failed record (non-null error message, null
generated code), never both, never neither. -/
theorem process_generation_single_terminal_write
    (llmResult : Except PyExc GenResult) (job_id prompt : String) :
    (process_generation llmResult).1 = Except.ok () ∧
    ((process_generation llmResult).2.filter DbWrite.isTerminal).length = 1 ∧
    (∃ w, (process_generation llmResult).2.getLast? = some w ∧ w.isTerminal = true) ∧
    ((((process_generation llmResult).2.foldl applyWrite
        (mkGenerationDoc job_id prompt)).status = "success" ∧
      ((process_generation llmResult).2.foldl applyWrite
        (mkGenerationDoc job_id prompt)).generated_code ≠ none ∧
      ((process_generation llmResult).2.foldl applyWrite
        (mkGenerationDoc job_id prompt)).explanation ≠ none ∧
      ((process_generation llmResult).2.foldl applyWrite
        (mkGenerationDoc job_id prompt)).error_message = none) ∨
    (((process_generation llmResult).2.foldl applyWrite
        (mkGenerationDoc job_id prompt)).status = "failed" ∧
      ((process_generation llmResult).2.foldl applyWrite
        (mkGenerationDoc job_id prompt)).error_message ≠ none ∧
      ((process_generation llmResult).2.foldl applyWrite
        (mkGenerationDoc job_id prompt)).generated_code = none)) := by
  cases llmResult with
  | ok r =>
      refine ⟨rfl, rfl, ⟨DbWrite.setSuccess r.code r.explanation, rfl, rfl⟩, ?_⟩
      left
      simp [process_generation, process_generation_try, applyWrite, mkGenerationDoc]
  | error e =>
      refine ⟨rfl, rfl, ⟨DbWrite.setFailed (excMessage e), rfl, rfl⟩, ?_⟩
      right
      simp [process_generation, process_generation_try, applyWrite, mkGenerationDoc]

/-
C1 / C2: interaction of the retry decorator with the breaker and with the
missing-key fault.
-/

/-- Counterexample to C1 as stated: with the breaker Open (and the timeout
not elapsed at any attempt), the breaker-open failure IS retried by the
retry policy — CircuitBreakerOpenError is a subclass of the retriable
LLMServiceError — so all 3 attempts and 2 backoff waits are consumed
(while the underlying operation is indeed never invoked). -/
theorem generate_ui_code_breaker_open_not_retried_cex :
    (generate_ui_code "p" (fun i => AttemptEnv.mk (1000 + i) true (Except.ok "code"))
        (CircuitBreaker.mk 5 60 5 0 (some 1000) CircuitState.opened)).attempts = 3 ∧
    (generate_ui_code "p" (fun i => AttemptEnv.mk (1000 + i) true (Except.ok "code"))
        (CircuitBreaker.mk 5 60 5 0 (some 1000) CircuitState.opened)).sleeps = 2 ∧
    (generate_ui_code "p" (fun i => AttemptEnv.mk (1000 + i) true (Except.ok "code"))
        (CircuitBreaker.mk 5 60 5 0 (some 1000) CircuitState.opened)).apiCalls = 0 ∧
    (generate_ui_code "p" (fun i => AttemptEnv.mk (1000 + i) true (Except.ok "code"))
        (CircuitBreaker.mk 5 60 5 0 (some 1000) CircuitState.opened)).result
      = Except.error (PyExc.CircuitBreakerOpen
          "LLM service is temporarily unavailable. Please try again later.") := by
  refine ⟨rfl, rfl, rfl, rfl⟩

/-- Helper: if every attempt fails with the same retriable exception and
leaves the breaker untouched without invoking the API, the retry loop
consumes its whole budget and propagates that exception. -/
theorem retry_go_all_fail (prompt : String) (envs : Nat → AttemptEnv)
    (cb : CircuitBreaker) (e : PyExc) (he : isLLMServiceError e = true)
    (hatt : ∀ i, generate_attempt prompt (envs i) cb =
      { result := Except.error e, breaker := cb, invokedApi := false }) :
    ∀ n i, retry_go prompt envs n i cb =
      { result := Except.error e, attempts := i + n + 1, sleeps := i + n,
        apiCalls := 0, breaker := cb } := by
  intro n
  induction n with
  | zero =>
      intro i
      simp [retry_go, hatt i]
  | succ n ih =>
      intro i
      simp [retry_go, hatt i, he, ih (i + 1)]
      omega

/-- C1 amended: when the circuit breaker is Open (and its timeout has not
elapsed at any attempt time), generate_ui_code fails with the distinct
breaker-open error and never invokes the underlying OpenAI call — but,
because CircuitBreakerOpenError is a subclass of the retriable
LLMServiceError, the retry policy DOES retry it: the call consumes all 3
attempts and 2 backoff waits before the breaker-open error propagates. -/
theorem generate_ui_code_breaker_open_retried (prompt : String)
    (envs : Nat → AttemptEnv) (cb : CircuitBreaker) (t : Int)
    (hst : cb.state = CircuitState.opened)
    (hlf : cb.last_failure_time = some t)
    (helapsed : ∀ i, ¬(t ≠ 0 ∧ (envs i).now - t ≥ cb.timeout_seconds)) :
    generate_ui_code prompt envs cb =
      { result := Except.error (PyExc.CircuitBreakerOpen
          "LLM service is temporarily unavailable. Please try again later."),
        attempts := 3, sleeps := 2, apiCalls := 0, breaker := cb } := by
  have hatt : ∀ i, generate_attempt prompt (envs i) cb =
      { result := Except.error (PyExc.CircuitBreakerOpen
          "LLM service is temporarily unavailable. Please try again later."),
        breaker := cb, invokedApi := false } := by
    intro i
    have hcond : ¬(¬t = 0 ∧ cb.timeout_seconds ≤ (envs i).now - t) := by
      have := helapsed i
      omega
    simp [generate_attempt, can_execute, hst, hlf, hcond]
  have h := retry_go_all_fail prompt envs cb
    (PyExc.CircuitBreakerOpen
      "LLM service is temporarily unavailable. Please try again later.")
    rfl hatt 2 0
  simpa [generate_ui_code] using h

/-- Witness for the amended C1 at a concrete open breaker. -/
theorem generate_ui_code_breaker_open_retried_witness :
    generate_ui_code "p" (fun _ => AttemptEnv.mk 2000 true (Except.ok "x"))
        (CircuitBreaker.mk 5 60 5 0 (some 2000) CircuitState.opened) =
      { result := Except.error (PyExc.CircuitBreakerOpen
          "LLM service is temporarily unavailable. Please try again later."),
        attempts := 3, sleeps := 2, apiCalls := 0,
        breaker := CircuitBreaker.mk 5 60 5 0 (some 2000) CircuitState.opened } := by
  apply generate_ui_code_breaker_open_retried "p" _ _ 2000 rfl rfl
  intro i h
  have h2 := h.2
  norm_num at h2

/-- Counterexample to C2 as stated: with no API key configured (a fatal
configuration fault per the spec) and a fresh Closed breaker with
threshold 5, the missing-key error is raised inside the try block, caught,
recorded as a circuit-breaker failure and re-raised as the retriable
LLMServiceError: the call consumes all 3 attempts and 2 backoff waits, and
the breaker's failure_count ends at 3 — the fault is neither propagated
after the first attempt nor kept out of the breaker's failure accounting. -/
theorem generate_ui_code_missing_key_fail_fast_cex :
    (generate_ui_code "p" (fun i => AttemptEnv.mk (3000 + (i : Int)) false (Except.error "x"))
        (CircuitBreaker.mk 5 60 0 0 none CircuitState.closed)).attempts = 3 ∧
    (generate_ui_code "p" (fun i => AttemptEnv.mk (3000 + (i : Int)) false (Except.error "x"))
        (CircuitBreaker.mk 5 60 0 0 none CircuitState.closed)).sleeps = 2 ∧
    (generate_ui_code "p" (fun i => AttemptEnv.mk (3000 + (i : Int)) false (Except.error "x"))
        (CircuitBreaker.mk 5 60 0 0 none CircuitState.closed)).breaker.failure_count = 3 ∧
    (generate_ui_code "p" (fun i => AttemptEnv.mk (3000 + (i : Int)) false (Except.error "x"))
        (CircuitBreaker.mk 5 60 0 0 none CircuitState.closed)).result
      = Except.error (PyExc.LLMService
          "Failed to generate UI code: OpenAI API key not configured") := by
  refine ⟨rfl, rfl, rfl, rfl⟩

/-- C2 amended: with the OpenAI client unconfigured and a Closed breaker
whose threshold is at least 3, every generate_ui_code invocation raises
the missing-key fault inside the try block, where it is caught, recorded
as a circuit-breaker failure and re-raised as a retriable LLMServiceError;
the retry policy therefore runs all 3 attempts (2 backoff waits), records
3 breaker failures, never invokes the OpenAI API, and finally propagates
the wrapped error. -/
theorem generate_ui_code_missing_key_retried (prompt : String)
    (envs : Nat → AttemptEnv) (cb : CircuitBreaker)
    (hst : cb.state = CircuitState.closed)
    (hfc : cb.failure_count = 0)
    (hth : 3 ≤ cb.failure_threshold)
    (hclient : ∀ i, (envs i).clientConfigured = false) :
    (generate_ui_code prompt envs cb).result =
      Except.error (PyExc.LLMService
        "Failed to generate UI code: OpenAI API key not configured") ∧
    (generate_ui_code prompt envs cb).attempts = 3 ∧
    (generate_ui_code prompt envs cb).sleeps = 2 ∧
    (generate_ui_code prompt envs cb).apiCalls = 0 ∧
    (generate_ui_code prompt envs cb).breaker.failure_count = 3 := by
  have hattempt : ∀ (c : CircuitBreaker) i, c.state = CircuitState.closed →
      generate_attempt prompt (envs i) c =
        { result := Except.error (PyExc.LLMService
            "Failed to generate UI code: OpenAI API key not configured"),
          breaker := record_failure (envs i).now c, invokedApi := false } := by
    intro c i hc
    simp [generate_attempt, can_execute_closed _ _ hc, hclient i]
  have e1 : record_failure (envs 0).now cb =
      { cb with failure_count := 1, last_failure_time := some (envs 0).now } := by
    rw [record_failure_stays_closed _ _ hst (by omega)]
    rw [hfc]
  have hst1 : ({ cb with failure_count := 1, last_failure_time := some (envs 0).now } : CircuitBreaker).state = CircuitState.closed := hst
  have e2 : record_failure (envs 1).now ({ cb with failure_count := 1, last_failure_time := some (envs 0).now }) = { cb with failure_count := 2, last_failure_time := some (envs 1).now } := by
    rw [record_failure_stays_closed _ _ hst1 (by simp; omega)]
  have hst2 : ({ cb with failure_count := 2, last_failure_time := some (envs 1).now } : CircuitBreaker).state = CircuitState.closed := hst
  have e3 : (record_failure (envs 2).now ({ cb with failure_count := 2, last_failure_time := some (envs 1).now })).failure_count = 3 := by
    rw [record_failure_count]
  have h0 := hattempt cb 0 hst
  have h1 := hattempt _ 1 hst1
  have h2 := hattempt _ 2 hst2
  refine ⟨?_, ?_, ?_, ?_, ?_⟩ <;>
    simp [generate_ui_code, retry_go, h0, e1, h1, e2, h2, isLLMServiceError, e3]

/-- Witness for the amended C2 at a concrete unconfigured service. -/
theorem generate_ui_code_missing_key_retried_witness :
    (generate_ui_code "p" (fun _ => AttemptEnv.mk 4000 false (Except.error "x"))
        (CircuitBreaker.mk 5 60 0 0 none CircuitState.closed)).attempts = 3 ∧
    (generate_ui_code "p" (fun _ => AttemptEnv.mk 4000 false (Except.error "x"))
        (CircuitBreaker.mk 5 60 0 0 none CircuitState.closed)).breaker.failure_count = 3 := by
  have h := generate_ui_code_missing_key_retried "p"
    (fun _ => AttemptEnv.mk 4000 false (Except.error "x"))
    (CircuitBreaker.mk 5 60 0 0 none CircuitState.closed) rfl rfl (by decide) (fun _ => rfl)
  exact ⟨h.2.1, h.2.2.2.2⟩
